import Mathlib

/-!
Shallow embedding of the Grafana Live pipeline rule builder
(`pkg/services/live/pipeline` file storage: `extractConverter`,
`extractProcessor`, `extractConditionChecker`, `extractOutputter`,
`getRemoteWriteConfig`, `ListChannelRules`).

Go `(value, error)` returns are modelled by the `Res` type below; a Go
nil-pointer dereference (runtime panic) is modelled by the distinguished
`Res.nilPanic` result.  Go nilable pointers and interface values are
modelled by `Option`.  Payload configuration types that are defined in
other files of the repository and whose contents never influence
build-time resolution are modelled as opaque field-less structures.
-/

namespace Pipeline

/-- Payload type defined outside the provided sources; its contents do not
affect build-time resolution, so it is modelled opaquely. -/
structure AutoJsonConverterConfig where
  deriving DecidableEq

/-- Payload type defined outside the provided sources; modelled opaquely. -/
structure ExactJsonConverterConfig where
  deriving DecidableEq

/-- Payload type defined outside the provided sources; modelled opaquely. -/
structure AutoInfluxConverterConfig where
  deriving DecidableEq

/-- Payload type defined outside the provided sources; modelled opaquely. -/
structure JsonFrameConverterConfig where
  deriving DecidableEq

/-- Payload type defined outside the provided sources; modelled opaquely. -/
structure DropFieldsProcessorConfig where
  deriving DecidableEq

/-- Payload type defined outside the provided sources; modelled opaquely. -/
structure KeepFieldsProcessorConfig where
  deriving DecidableEq

/-- Payload type defined outside the provided sources; modelled opaquely. -/
structure RedirectOutputConfig where
  deriving DecidableEq

/-- Payload type defined outside the provided sources; modelled opaquely. -/
structure ThresholdOutputConfig where
  deriving DecidableEq

/-- Payload type defined outside the provided sources; modelled opaquely. -/
structure ChangeLogOutputConfig where
  deriving DecidableEq

/-- Settings of a remote write backend (`RemoteWriteConfig`), defined
outside the provided sources; modelled opaquely.  The build copies the
resolved value into the constructed outputter. -/
structure RemoteWriteConfig where
  deriving DecidableEq

/-- The `managedstream.Runner` collaborator (external), modelled opaquely. -/
structure ManagedStreamRunner where
  deriving DecidableEq

/-- The `centrifuge.Node` collaborator (external), modelled opaquely. -/
structure CentrifugeNode where
  deriving DecidableEq

/-- The `FrameStorage` collaborator, modelled opaquely (only handed to
stateful outputters at build time). -/
structure FrameStorage where
  deriving DecidableEq

/-- Type `ConditionType` is declared outside the provided sources; the spec
describes it as an AND/OR discriminator.  It is carried through the build
untouched, so a string model suffices. -/
abbrev ConditionType := String

/-- Type `NumberCompareOp` is declared outside the provided sources (one of
eq/ne/gt/gte/lt/lte); carried through the build untouched. -/
abbrev NumberCompareOp := String

/-- Source type `ManagedStreamOutputConfig` — empty struct in the source. -/
structure ManagedStreamOutputConfig where
  deriving DecidableEq

/-- Source type `RemoteWriteOutputConfig` — the UID naming a remote write backend. -/
structure RemoteWriteOutputConfig where
  uid : String
  deriving DecidableEq

/-- Source type `NumberCompareConditionConfig`. -/
structure NumberCompareConditionConfig where
  fieldName : String
  op : NumberCompareOp
  value : Float

/-- Source type `ConverterConfig`: the tagged ConfigNode for converters.  Each
`omitempty` pointer field is an `Option`. -/
structure ConverterConfig where
  type : String
  autoJsonConverterConfig : Option AutoJsonConverterConfig
  exactJsonConverterConfig : Option ExactJsonConverterConfig
  autoInfluxConverterConfig : Option AutoInfluxConverterConfig
  jsonFrameConverterConfig : Option JsonFrameConverterConfig

mutual

/-- Source type `ProcessorConfig`: the tagged ConfigNode for processors. -/
inductive ProcessorConfig where
  | mk (type : String)
       (dropFieldsProcessorConfig : Option DropFieldsProcessorConfig)
       (keepFieldsProcessorConfig : Option KeepFieldsProcessorConfig)
       (multipleProcessorConfig : Option MultipleProcessorConfig)

/-- Source type `MultipleProcessorConfig`: ordered child ConfigNodes. -/
inductive MultipleProcessorConfig where
  | mk (processors : List ProcessorConfig)

end

/-- The `Type` field of a `ProcessorConfig`. -/
def ProcessorConfig.type : ProcessorConfig → String
  | .mk t _ _ _ => t

mutual

/-- Source type `ConditionCheckerConfig`: the tagged ConfigNode for condition checkers. -/
inductive ConditionCheckerConfig where
  | mk (type : String)
       (multipleConditionCheckerConfig : Option MultipleConditionCheckerConfig)
       (numberCompareConditionConfig : Option NumberCompareConditionConfig)

/-- Source type `MultipleConditionCheckerConfig`: AND/OR discriminator plus ordered
child ConfigNodes. -/
inductive MultipleConditionCheckerConfig where
  | mk (type : ConditionType) (conditions : List ConditionCheckerConfig)

end

/-- The `Type` field of a `ConditionCheckerConfig`. -/
def ConditionCheckerConfig.type : ConditionCheckerConfig → String
  | .mk t _ _ => t

mutual

/-- Source type `OutputterConfig`: the tagged ConfigNode for outputters. -/
inductive OutputterConfig where
  | mk (type : String)
       (managedStreamConfig : Option ManagedStreamOutputConfig)
       (multipleOutputterConfig : Option MultipleOutputterConfig)
       (redirectOutputConfig : Option RedirectOutputConfig)
       (conditionalOutputConfig : Option ConditionalOutputConfig)
       (thresholdOutputConfig : Option ThresholdOutputConfig)
       (remoteWriteOutputConfig : Option RemoteWriteOutputConfig)
       (changeLogOutputConfig : Option ChangeLogOutputConfig)

/-- Source type `MultipleOutputterConfig`: ordered child ConfigNodes. -/
inductive MultipleOutputterConfig where
  | mk (outputters : List OutputterConfig)

/-- Source type `ConditionalOutputConfig`: a condition sub-node and an outputter
sub-node, each nilable. -/
inductive ConditionalOutputConfig where
  | mk (condition : Option ConditionCheckerConfig)
       (outputter : Option OutputterConfig)

end

/-- The `Type` field of an `OutputterConfig`. -/
def OutputterConfig.type : OutputterConfig → String
  | .mk t _ _ _ _ _ _ _ => t

/-- Source type `RemoteWriteBackend`: UID plus nilable settings pointer. -/
structure RemoteWriteBackend where
  uid : String
  settings : Option RemoteWriteConfig
  deriving DecidableEq

/-- Source type `ChannelRuleSettings`: the three optional stages of a rule. -/
structure ChannelRuleSettings where
  converter : Option ConverterConfig
  processor : Option ProcessorConfig
  outputter : Option OutputterConfig

/-- Source type `ChannelRule`: pattern plus settings. -/
structure ChannelRule where
  pattern : String
  settings : ChannelRuleSettings

/-- Source type `ChannelRules`: the parsed configuration document. -/
structure ChannelRules where
  rules : List ChannelRule
  remoteWriteBackends : List RemoteWriteBackend

/-- A built converter.  Runtime behaviour of the constructed object lives
in other files; the build result records which constructor ran and with
which configuration. -/
inductive Converter where
  | autoJson (config : AutoJsonConverterConfig)
  | exactJson (config : ExactJsonConverterConfig)
  | jsonFrame (config : JsonFrameConverterConfig)
  | autoInflux (config : AutoInfluxConverterConfig)

/-- A built processor.  `multiple` keeps the (nilable) children in the
order they were appended. -/
inductive Processor where
  | dropFields (config : DropFieldsProcessorConfig)
  | keepFields (config : KeepFieldsProcessorConfig)
  | multiple (processors : List (Option Processor))

/-- A built condition checker. -/
inductive ConditionChecker where
  | numberCompare (fieldName : String) (op : NumberCompareOp) (value : Float)
  | multiple (type : ConditionType) (conditions : List (Option ConditionChecker))

/-- A built outputter. -/
inductive Outputter where
  | redirect (config : RedirectOutputConfig)
  | multiple (outputters : List (Option Outputter))
  | managedStream (runner : ManagedStreamRunner)
  | localSubscribers (node : CentrifugeNode)
  | conditional (condition : Option ConditionChecker) (outputter : Option Outputter)
  | threshold (frameStorage : FrameStorage) (config : ThresholdOutputConfig)
  | remoteWrite (config : RemoteWriteConfig)
  | changeLog (frameStorage : FrameStorage) (config : ChangeLogOutputConfig)

/-- Source type `LiveChannelRule`: a built rule (declared outside the provided
sources; its four fields are exactly the ones `ListChannelRules` sets). -/
structure LiveChannelRule where
  pattern : String
  converter : Option Converter
  processor : Option Processor
  outputter : Option Outputter

/-- Source type `FileStorage`: holds the external collaborators and the remote write
backend list populated by `ListChannelRules`. -/
structure FileStorage where
  node : CentrifugeNode
  managedStream : ManagedStreamRunner
  frameStorage : FrameStorage
  remoteWriteBackends : List RemoteWriteBackend

/-- Result of a Go `(value, error)` computation: `ok v` is `(v, nil)`,
`err msg` is `(zero, errors.New msg)`, and `nilPanic` marks a run that
dereferences a nil pointer (Go runtime panic), which never produces a
return value at all. -/
inductive Res (α : Type) where
  | ok (val : α)
  | err (msg : String)
  | nilPanic

/-- Returns `true` iff the computation returned a value with a nil error. -/
def Res.isOk {α : Type} : Res α → Bool
  | .ok _ => true
  | _ => false

/-- Source function `extractConverter` (receiver unused by the source body). -/
def FileStorage.extractConverter (_f : FileStorage) (config : Option ConverterConfig) :
    Res (Option Converter) :=
  match config with
  | none => .ok none
  | some c =>
    let missingConfiguration := "missing configuration for " ++ c.type
    match c.type with
    | "jsonAuto" =>
      match c.autoJsonConverterConfig with
      | none => .err missingConfiguration
      | some cc => .ok (some (.autoJson cc))
    | "jsonExact" =>
      match c.exactJsonConverterConfig with
      | none => .err missingConfiguration
      | some cc => .ok (some (.exactJson cc))
    | "jsonFrame" =>
      match c.jsonFrameConverterConfig with
      | none => .err missingConfiguration
      | some cc => .ok (some (.jsonFrame cc))
    | "influxAuto" =>
      match c.autoInfluxConverterConfig with
      | none => .err missingConfiguration
      | some cc => .ok (some (.autoInflux cc))
    | _ => .err ("unknown converter type: " ++ c.type)

mutual

/-- Body of `extractProcessor` after its nil check (the source calls
`f.extractProcessor(&out)` with a non-nil pointer for every child, so the
children go straight through this body). -/
def FileStorage.extractProcessorCore (f : FileStorage) (config : ProcessorConfig) :
    Res (Option Processor) :=
  match config with
  | .mk type dropFieldsProcessorConfig keepFieldsProcessorConfig multipleProcessorConfig =>
    let missingConfiguration := "missing configuration for " ++ type
    match type with
    | "dropFields" =>
      match dropFieldsProcessorConfig with
      | none => .err missingConfiguration
      | some cc => .ok (some (.dropFields cc))
    | "keepFields" =>
      match keepFieldsProcessorConfig with
      | none => .err missingConfiguration
      | some cc => .ok (some (.keepFields cc))
    | "multiple" =>
      match multipleProcessorConfig with
      | none => .err missingConfiguration
      | some (.mk procs) =>
        match f.extractProcessorList procs with
        | .err e => .err e
        | .nilPanic => .nilPanic
        | .ok processors => .ok (some (.multiple processors))
    | _ => .err ("unknown processor type: " ++ type)

/-- The `for _, outConf := range ... { proc, err := f.extractProcessor(&out);
if err != nil return nil, err; processors = append(processors, proc) }`
loop of `extractProcessor`. -/
def FileStorage.extractProcessorList (f : FileStorage) (configs : List ProcessorConfig) :
    Res (List (Option Processor)) :=
  match configs with
  | [] => .ok []
  | c :: rest =>
    match f.extractProcessorCore c with
    | .err e => .err e
    | .nilPanic => .nilPanic
    | .ok proc =>
      match f.extractProcessorList rest with
      | .err e => .err e
      | .nilPanic => .nilPanic
      | .ok procs => .ok (proc :: procs)

end

/-- Source function `extractProcessor`. -/
def FileStorage.extractProcessor (f : FileStorage) (config : Option ProcessorConfig) :
    Res (Option Processor) :=
  match config with
  | none => .ok none
  | some c => f.extractProcessorCore c

mutual

/-- Body of `extractConditionChecker` after its nil check. -/
def FileStorage.extractConditionCheckerCore (f : FileStorage)
    (config : ConditionCheckerConfig) : Res (Option ConditionChecker) :=
  match config with
  | .mk type multipleConditionCheckerConfig numberCompareConditionConfig =>
    let missingConfiguration := "missing configuration for " ++ type
    match type with
    | "numberCompare" =>
      match numberCompareConditionConfig with
      | none => .err missingConfiguration
      | some c => .ok (some (.numberCompare c.fieldName c.op c.value))
    | "multiple" =>
      match multipleConditionCheckerConfig with
      | none => .err missingConfiguration
      | some (.mk condType conds) =>
        match f.extractConditionCheckerList conds with
        | .err e => .err e
        | .nilPanic => .nilPanic
        | .ok conditions => .ok (some (.multiple condType conditions))
    | _ => .err ("unknown condition type: " ++ type)

/-- The child loop of `extractConditionChecker`'s `multiple` case. -/
def FileStorage.extractConditionCheckerList (f : FileStorage)
    (configs : List ConditionCheckerConfig) : Res (List (Option ConditionChecker)) :=
  match configs with
  | [] => .ok []
  | c :: rest =>
    match f.extractConditionCheckerCore c with
    | .err e => .err e
    | .nilPanic => .nilPanic
    | .ok cond =>
      match f.extractConditionCheckerList rest with
      | .err e => .err e
      | .nilPanic => .nilPanic
      | .ok conds => .ok (cond :: conds)

end

/-- Source function `extractConditionChecker`. -/
def FileStorage.extractConditionChecker (f : FileStorage)
    (config : Option ConditionCheckerConfig) : Res (Option ConditionChecker) :=
  match config with
  | none => .ok none
  | some c => f.extractConditionCheckerCore c

/-- The lookup loop of `getRemoteWriteConfig` over the backend list. -/
def getRemoteWriteConfigFrom (backends : List RemoteWriteBackend) (uid : String) :
    Option RemoteWriteConfig × Bool :=
  match backends with
  | [] => (none, false)
  | rwb :: rest =>
    if rwb.uid == uid then (rwb.settings, true)
    else getRemoteWriteConfigFrom rest uid

/-- Source function `getRemoteWriteConfig`: first backend whose UID matches; returns the
(nilable) settings pointer and a found flag. -/
def FileStorage.getRemoteWriteConfig (f : FileStorage) (uid : String) :
    Option RemoteWriteConfig × Bool :=
  getRemoteWriteConfigFrom f.remoteWriteBackends uid

mutual

/-- Source function `extractOutputter`. -/
def FileStorage.extractOutputter (f : FileStorage) (config : Option OutputterConfig) :
    Res (Option Outputter) :=
  match config with
  | none => .ok none
  | some c => f.extractOutputterCore c

/-- Body of `extractOutputter` after its nil check.  The `remoteWrite` case
dereferences the looked-up settings pointer without a nil check, so a
found backend with nil settings is a `nilPanic`. -/
def FileStorage.extractOutputterCore (f : FileStorage) (config : OutputterConfig) :
    Res (Option Outputter) :=
  match config with
  | .mk type _managedStreamConfig multipleOutputterConfig redirectOutputConfig
      conditionalOutputConfig thresholdOutputConfig remoteWriteOutputConfig
      changeLogOutputConfig =>
    let missingConfiguration := "missing configuration for " ++ type
    match type with
    | "redirect" =>
      match redirectOutputConfig with
      | none => .err missingConfiguration
      | some cc => .ok (some (.redirect cc))
    | "multiple" =>
      match multipleOutputterConfig with
      | none => .err missingConfiguration
      | some (.mk outs) =>
        match f.extractOutputterList outs with
        | .err e => .err e
        | .nilPanic => .nilPanic
        | .ok outputters => .ok (some (.multiple outputters))
    | "ManagedStream" => .ok (some (.managedStream f.managedStream))
    | "localSubscribers" => .ok (some (.localSubscribers f.node))
    | "conditional" =>
      match conditionalOutputConfig with
      | none => .err missingConfiguration
      | some (.mk condNode outNode) =>
        match f.extractConditionChecker condNode with
        | .err e => .err e
        | .nilPanic => .nilPanic
        | .ok condition =>
          match f.extractOutputter outNode with
          | .err e => .err e
          | .nilPanic => .nilPanic
          | .ok outputter => .ok (some (.conditional condition outputter))
    | "threshold" =>
      match thresholdOutputConfig with
      | none => .err missingConfiguration
      | some cc => .ok (some (.threshold f.frameStorage cc))
    | "remoteWrite" =>
      match remoteWriteOutputConfig with
      | none => .err missingConfiguration
      | some rw =>
        match f.getRemoteWriteConfig rw.uid with
        | (_, false) => .err ("unknown remote write backend uid: " ++ rw.uid)
        | (none, true) => .nilPanic
        | (some remoteWriteConfig, true) => .ok (some (.remoteWrite remoteWriteConfig))
    | "changeLog" =>
      match changeLogOutputConfig with
      | none => .err missingConfiguration
      | some cc => .ok (some (.changeLog f.frameStorage cc))
    | _ => .err ("unknown output type: " ++ type)

/-- The child loop of `extractOutputter`'s `multiple` case. -/
def FileStorage.extractOutputterList (f : FileStorage) (configs : List OutputterConfig) :
    Res (List (Option Outputter)) :=
  match configs with
  | [] => .ok []
  | c :: rest =>
    match f.extractOutputterCore c with
    | .err e => .err e
    | .nilPanic => .nilPanic
    | .ok outputter =>
      match f.extractOutputterList rest with
      | .err e => .err e
      | .nilPanic => .nilPanic
      | .ok outs => .ok (outputter :: outs)

end

/-- Build of one `LiveChannelRule` from its config: the three stage
extractions of the `ListChannelRules` loop body, each aborting on error. -/
def FileStorage.buildRule (f : FileStorage) (ruleConfig : ChannelRule) :
    Res LiveChannelRule :=
  match f.extractConverter ruleConfig.settings.converter with
  | .err e => .err e
  | .nilPanic => .nilPanic
  | .ok conv =>
    match f.extractProcessor ruleConfig.settings.processor with
    | .err e => .err e
    | .nilPanic => .nilPanic
    | .ok proc =>
      match f.extractOutputter ruleConfig.settings.outputter with
      | .err e => .err e
      | .nilPanic => .nilPanic
      | .ok outp =>
        .ok { pattern := ruleConfig.pattern
              converter := conv
              processor := proc
              outputter := outp }

/-- The `for _, ruleConfig := range channelRules.Rules` loop of
`ListChannelRules`: builds every rule in order, returning the first error
with no rules. -/
def FileStorage.buildRules (f : FileStorage) (ruleConfigs : List ChannelRule) :
    Res (List LiveChannelRule) :=
  match ruleConfigs with
  | [] => .ok []
  | rc :: rest =>
    match f.buildRule rc with
    | .err e => .err e
    | .nilPanic => .nilPanic
    | .ok rule =>
      match f.buildRules rest with
      | .err e => .err e
      | .nilPanic => .nilPanic
      | .ok rules => .ok (rule :: rules)

/-- Source function `ListChannelRules`, modelled from the successful-unmarshal point on:
the parsed `ChannelRules` document is the input (file reading and JSON
decoding are external).  The source assigns
`f.remoteWriteBackends = channelRules.RemoteWriteBackends` before building
any rule, so the updated storage is returned alongside the result. -/
def FileStorage.ListChannelRules (f : FileStorage) (channelRules : ChannelRules) :
    FileStorage × Res (List LiveChannelRule) :=
  let f' := { f with remoteWriteBackends := channelRules.remoteWriteBackends }
  (f', f'.buildRules channelRules.rules)

/-- The converter discriminators with a case in `extractConverter`. -/
def knownConverterType (t : String) : Bool :=
  t == "jsonAuto" || t == "jsonExact" || t == "jsonFrame" || t == "influxAuto"

/-- The processor discriminators with a case in `extractProcessor`. -/
def knownProcessorType (t : String) : Bool :=
  t == "dropFields" || t == "keepFields" || t == "multiple"

/-- The condition discriminators with a case in `extractConditionChecker`. -/
def knownConditionType (t : String) : Bool :=
  t == "numberCompare" || t == "multiple"

/-- The outputter discriminators with a case in `extractOutputter`. -/
def knownOutputType (t : String) : Bool :=
  t == "redirect" || t == "multiple" || t == "ManagedStream" || t == "localSubscribers" ||
  t == "conditional" || t == "threshold" || t == "remoteWrite" || t == "changeLog"

/-- A converter ConfigNode whose discriminator is unknown. -/
def ConverterConfig.hasUnknownType (c : ConverterConfig) : Bool :=
  !knownConverterType c.type

mutual

/-- Some ConfigNode reachable by the processor resolver (the node itself,
or a child of an active `multiple` payload, recursively) has an unknown
discriminator. -/
def ProcessorConfig.hasUnknownType : ProcessorConfig → Bool
  | .mk t _ _ multC =>
    !knownProcessorType t ||
    (t == "multiple" &&
      match multC with
      | some (.mk procs) => procsHaveUnknownType procs
      | none => false)

/-- Any node of the list has an unknown discriminator somewhere. -/
def procsHaveUnknownType : List ProcessorConfig → Bool
  | [] => false
  | c :: rest => c.hasUnknownType || procsHaveUnknownType rest

end

mutual

/-- Some ConfigNode reachable by the condition resolver has an unknown
discriminator. -/
def ConditionCheckerConfig.hasUnknownType : ConditionCheckerConfig → Bool
  | .mk t multC _ =>
    !knownConditionType t ||
    (t == "multiple" &&
      match multC with
      | some (.mk _ conds) => condsHaveUnknownType conds
      | none => false)

/-- Any node of the list has an unknown discriminator somewhere. -/
def condsHaveUnknownType : List ConditionCheckerConfig → Bool
  | [] => false
  | c :: rest => c.hasUnknownType || condsHaveUnknownType rest

end

mutual

/-- Some ConfigNode reachable by the outputter resolver (through active
`multiple` children or the two `conditional` sub-nodes) has an unknown
discriminator. -/
def OutputterConfig.hasUnknownType : OutputterConfig → Bool
  | .mk t _ multC _ condC _ _ _ =>
    !knownOutputType t ||
    (t == "multiple" &&
      match multC with
      | some (.mk outs) => outsHaveUnknownType outs
      | none => false) ||
    (t == "conditional" &&
      match condC with
      | some (.mk condNode outNode) =>
        (match condNode with
         | some c => c.hasUnknownType
         | none => false) ||
        (match outNode with
         | some o => o.hasUnknownType
         | none => false)
      | none => false)

/-- Any node of the list has an unknown discriminator somewhere. -/
def outsHaveUnknownType : List OutputterConfig → Bool
  | [] => false
  | c :: rest => c.hasUnknownType || outsHaveUnknownType rest

end

/-- Some ConfigNode of the rule's configuration tree has an unknown
discriminator. -/
def ChannelRule.hasUnknownType (r : ChannelRule) : Bool :=
  (match r.settings.converter with
   | some c => c.hasUnknownType
   | none => false) ||
  (match r.settings.processor with
   | some c => c.hasUnknownType
   | none => false) ||
  (match r.settings.outputter with
   | some c => c.hasUnknownType
   | none => false)

/-- Some ConfigNode of some rule of the document has an unknown
discriminator. -/
def ChannelRules.hasUnknownType (d : ChannelRules) : Bool :=
  d.rules.any ChannelRule.hasUnknownType

/-- A concrete `FileStorage` with no remote write backends, for concrete
evaluations. -/
def sampleStorage : FileStorage :=
  { node := {}, managedStream := {}, frameStorage := {}, remoteWriteBackends := [] }

theorem extractConverter_unknown_type (f : FileStorage) (c : ConverterConfig)
    (h : knownConverterType c.type = false) :
    f.extractConverter (some c) = .err ("unknown converter type: " ++ c.type) := by
  obtain ⟨t, a, b, d, e⟩ := c
  simp only [knownConverterType, Bool.or_eq_false_iff, beq_eq_false_iff_ne] at h
  obtain ⟨⟨⟨h1, h2⟩, h3⟩, h4⟩ := h
  simp only [FileStorage.extractConverter]

theorem extractProcessorCore_unknown_type (f : FileStorage) (c : ProcessorConfig)
    (h : knownProcessorType c.type = false) :
    f.extractProcessorCore c = .err ("unknown processor type: " ++ c.type) := by
  obtain ⟨t, a, b, d⟩ := c
  simp only [ProcessorConfig.type] at h ⊢
  simp only [knownProcessorType, Bool.or_eq_false_iff, beq_eq_false_iff_ne] at h
  obtain ⟨⟨h1, h2⟩, h3⟩ := h
  rw [FileStorage.extractProcessorCore] <;> simp_all

theorem extractConditionCheckerCore_unknown_type (f : FileStorage)
    (c : ConditionCheckerConfig) (h : knownConditionType c.type = false) :
    f.extractConditionCheckerCore c = .err ("unknown condition type: " ++ c.type) := by
  obtain ⟨t, a, b⟩ := c
  simp only [ConditionCheckerConfig.type] at h ⊢
  simp only [knownConditionType, Bool.or_eq_false_iff, beq_eq_false_iff_ne] at h
  obtain ⟨h1, h2⟩ := h
  rw [FileStorage.extractConditionCheckerCore] <;> simp_all

theorem extractOutputterCore_unknown_type (f : FileStorage) (c : OutputterConfig)
    (h : knownOutputType c.type = false) :
    f.extractOutputterCore c = .err ("unknown output type: " ++ c.type) := by
  obtain ⟨t, a, b, d, e, g, i, j⟩ := c
  simp only [OutputterConfig.type] at h ⊢
  simp only [knownOutputType, Bool.or_eq_false_iff, beq_eq_false_iff_ne] at h
  obtain ⟨⟨⟨⟨⟨⟨⟨h1, h2⟩, h3⟩, h4⟩, h5⟩, h6⟩, h7⟩, h8⟩ := h
  rw [FileStorage.extractOutputterCore] <;> simp_all

theorem extractProcessor_some (f : FileStorage) (c : ProcessorConfig) :
    f.extractProcessor (some c) = f.extractProcessorCore c := rfl

theorem extractConditionChecker_some (f : FileStorage) (c : ConditionCheckerConfig) :
    f.extractConditionChecker (some c) = f.extractConditionCheckerCore c := rfl

theorem extractOutputter_some (f : FileStorage) (c : OutputterConfig) :
    f.extractOutputter (some c) = f.extractOutputterCore c := by
  rw [FileStorage.extractOutputter]

theorem conditionUnknownAux (n : Nat) :
    (∀ (f : FileStorage) (c : ConditionCheckerConfig), sizeOf c ≤ n →
        c.hasUnknownType = true → (f.extractConditionCheckerCore c).isOk = false) ∧
    (∀ (f : FileStorage) (cs : List ConditionCheckerConfig), sizeOf cs ≤ n →
        condsHaveUnknownType cs = true → (f.extractConditionCheckerList cs).isOk = false) := by
  induction n using Nat.strong_induction_on with
  | _ n IH =>
    constructor
    · intro f c hsz h
      obtain ⟨t, mc, nc⟩ := c
      by_cases hk : knownConditionType t = true
      · rw [ConditionCheckerConfig.hasUnknownType.eq_def] at h
        simp only [hk, Bool.not_true, Bool.false_or, Bool.and_eq_true, beq_iff_eq] at h
        obtain ⟨ht, hx⟩ := h
        subst ht
        cases mc with
        | none => simp at hx
        | some m =>
          cases m with
          | mk ct conds =>
            have hlt : sizeOf conds < n := by
              simp only [ConditionCheckerConfig.mk.sizeOf_spec, Option.some.sizeOf_spec,
                MultipleConditionCheckerConfig.mk.sizeOf_spec] at hsz
              omega
            have ih := (IH (sizeOf conds) hlt).2 f conds (le_refl _) hx
            simp only [FileStorage.extractConditionCheckerCore]
            cases hres : f.extractConditionCheckerList conds <;> simp_all [Res.isOk]
      · rw [Bool.not_eq_true] at hk
        have hk' : knownConditionType (ConditionCheckerConfig.mk t mc nc).type = false := by
          simpa [ConditionCheckerConfig.type] using hk
        rw [extractConditionCheckerCore_unknown_type f _ hk']
        rfl
    · intro f cs hsz h
      cases cs with
      | nil => simp [condsHaveUnknownType] at h
      | cons c rest =>
        simp only [condsHaveUnknownType, Bool.or_eq_true] at h
        have hszc : sizeOf c < n := by
          simp only [List.cons.sizeOf_spec] at hsz
          omega
        have hszr : sizeOf rest < n := by
          simp only [List.cons.sizeOf_spec] at hsz
          omega
        rw [FileStorage.extractConditionCheckerList]
        rcases h with h | h
        · have ih := (IH (sizeOf c) hszc).1 f c (le_refl _) h
          cases hres : f.extractConditionCheckerCore c <;> simp_all [Res.isOk]
        · have ih := (IH (sizeOf rest) hszr).2 f rest (le_refl _) h
          cases hres : f.extractConditionCheckerCore c <;>
            cases hres2 : f.extractConditionCheckerList rest <;> simp_all [Res.isOk]

theorem processorUnknownAux (n : Nat) :
    (∀ (f : FileStorage) (c : ProcessorConfig), sizeOf c ≤ n →
        c.hasUnknownType = true → (f.extractProcessorCore c).isOk = false) ∧
    (∀ (f : FileStorage) (cs : List ProcessorConfig), sizeOf cs ≤ n →
        procsHaveUnknownType cs = true → (f.extractProcessorList cs).isOk = false) := by
  induction n using Nat.strong_induction_on with
  | _ n IH =>
    constructor
    · intro f c hsz h
      obtain ⟨t, dc, kc, mc⟩ := c
      by_cases hk : knownProcessorType t = true
      · rw [ProcessorConfig.hasUnknownType.eq_def] at h
        simp only [hk, Bool.not_true, Bool.false_or, Bool.and_eq_true, beq_iff_eq] at h
        obtain ⟨ht, hx⟩ := h
        subst ht
        cases mc with
        | none => simp at hx
        | some m =>
          cases m with
          | mk procs =>
            have hlt : sizeOf procs < n := by
              simp only [ProcessorConfig.mk.sizeOf_spec, Option.some.sizeOf_spec,
                MultipleProcessorConfig.mk.sizeOf_spec] at hsz
              omega
            have ih := (IH (sizeOf procs) hlt).2 f procs (le_refl _) hx
            simp only [FileStorage.extractProcessorCore]
            cases hres : f.extractProcessorList procs <;> simp_all [Res.isOk]
      · rw [Bool.not_eq_true] at hk
        have hk' : knownProcessorType (ProcessorConfig.mk t dc kc mc).type = false := by
          simpa [ProcessorConfig.type] using hk
        rw [extractProcessorCore_unknown_type f _ hk']
        rfl
    · intro f cs hsz h
      cases cs with
      | nil => simp [procsHaveUnknownType] at h
      | cons c rest =>
        simp only [procsHaveUnknownType, Bool.or_eq_true] at h
        have hszc : sizeOf c < n := by
          simp only [List.cons.sizeOf_spec] at hsz
          omega
        have hszr : sizeOf rest < n := by
          simp only [List.cons.sizeOf_spec] at hsz
          omega
        rw [FileStorage.extractProcessorList]
        rcases h with h | h
        · have ih := (IH (sizeOf c) hszc).1 f c (le_refl _) h
          cases hres : f.extractProcessorCore c <;> simp_all [Res.isOk]
        · have ih := (IH (sizeOf rest) hszr).2 f rest (le_refl _) h
          cases hres : f.extractProcessorCore c <;>
            cases hres2 : f.extractProcessorList rest <;> simp_all [Res.isOk]

theorem extractOutputterCore_conditional (f : FileStorage)
    (msc : Option ManagedStreamOutputConfig) (mc : Option MultipleOutputterConfig)
    (rc : Option RedirectOutputConfig) (tc : Option ThresholdOutputConfig)
    (rwc : Option RemoteWriteOutputConfig) (clc : Option ChangeLogOutputConfig)
    (condNode : Option ConditionCheckerConfig) (outNode : Option OutputterConfig) :
    f.extractOutputterCore
        (.mk "conditional" msc mc rc (some (.mk condNode outNode)) tc rwc clc) =
      match f.extractConditionChecker condNode with
      | .err e => .err e
      | .nilPanic => .nilPanic
      | .ok condition =>
        match f.extractOutputter outNode with
        | .err e => .err e
        | .nilPanic => .nilPanic
        | .ok outputter => .ok (some (.conditional condition outputter)) := rfl

theorem extractOutputterCore_multiple (f : FileStorage)
    (msc : Option ManagedStreamOutputConfig)
    (rc : Option RedirectOutputConfig) (cc : Option ConditionalOutputConfig)
    (tc : Option ThresholdOutputConfig)
    (rwc : Option RemoteWriteOutputConfig) (clc : Option ChangeLogOutputConfig)
    (outs : List OutputterConfig) :
    f.extractOutputterCore
        (.mk "multiple" msc (some (.mk outs)) rc cc tc rwc clc) =
      match f.extractOutputterList outs with
      | .err e => .err e
      | .nilPanic => .nilPanic
      | .ok outputters => .ok (some (.multiple outputters)) := rfl

theorem outputterUnknownAux (n : Nat) :
    (∀ (f : FileStorage) (c : OutputterConfig), sizeOf c ≤ n →
        c.hasUnknownType = true → (f.extractOutputterCore c).isOk = false) ∧
    (∀ (f : FileStorage) (cs : List OutputterConfig), sizeOf cs ≤ n →
        outsHaveUnknownType cs = true → (f.extractOutputterList cs).isOk = false) := by
  induction n using Nat.strong_induction_on with
  | _ n IH =>
    constructor
    · intro f c hsz h
      obtain ⟨t, msc, mc, rc, cc, tc, rwc, clc⟩ := c
      by_cases hk : knownOutputType t = true
      · rw [OutputterConfig.hasUnknownType.eq_def] at h
        simp only [hk, Bool.not_true, Bool.false_or, Bool.or_eq_true, Bool.and_eq_true,
          beq_iff_eq] at h
        rcases h with ⟨ht, hx⟩ | ⟨ht, hx⟩
        · subst ht
          cases mc with
          | none => simp at hx
          | some m =>
            cases m with
            | mk outs =>
              have hlt : sizeOf outs < n := by
                simp only [OutputterConfig.mk.sizeOf_spec, Option.some.sizeOf_spec,
                  MultipleOutputterConfig.mk.sizeOf_spec] at hsz
                omega
              have ih := (IH (sizeOf outs) hlt).2 f outs (le_refl _) hx
              rw [extractOutputterCore_multiple]
              cases hres : f.extractOutputterList outs with
              | err e => rfl
              | nilPanic => rfl
              | ok v => rw [hres] at ih; simp [Res.isOk] at ih
        · subst ht
          cases cc with
          | none => simp at hx
          | some m =>
            cases m with
            | mk condNode outNode =>
              rw [extractOutputterCore_conditional]
              have houtRoute : ∀ ocfg : OutputterConfig, outNode = some ocfg →
                  ocfg.hasUnknownType = true →
                  (match f.extractConditionChecker condNode with
                   | .err e => (Res.err e : Res (Option Outputter))
                   | .nilPanic => .nilPanic
                   | .ok condition =>
                     match f.extractOutputter outNode with
                     | .err e => .err e
                     | .nilPanic => .nilPanic
                     | .ok outputter =>
                       .ok (some (.conditional condition outputter))).isOk = false := by
                intro ocfg hoc hocu
                subst hoc
                have hlt : sizeOf ocfg < n := by
                  simp only [OutputterConfig.mk.sizeOf_spec, Option.some.sizeOf_spec,
                    ConditionalOutputConfig.mk.sizeOf_spec] at hsz
                  omega
                have iho := (IH (sizeOf ocfg) hlt).1 f ocfg (le_refl _) hocu
                cases hres : f.extractConditionChecker condNode with
                | err e => rfl
                | nilPanic => rfl
                | ok cond =>
                  rw [extractOutputter_some]
                  cases hres2 : f.extractOutputterCore ocfg with
                  | err e => rfl
                  | nilPanic => rfl
                  | ok v => rw [hres2] at iho; simp [Res.isOk] at iho
              cases condNode with
              | none =>
                simp only [Bool.false_or] at hx
                cases outNode with
                | none => simp at hx
                | some ocfg => exact houtRoute ocfg rfl hx
              | some ccfg =>
                by_cases hcu : ccfg.hasUnknownType = true
                · have ihc := (conditionUnknownAux (sizeOf ccfg)).1 f ccfg (le_refl _) hcu
                  rw [extractConditionChecker_some]
                  cases hres : f.extractConditionCheckerCore ccfg with
                  | err e => rfl
                  | nilPanic => rfl
                  | ok v => rw [hres] at ihc; simp [Res.isOk] at ihc
                · rw [Bool.not_eq_true] at hcu
                  simp only [hcu, Bool.false_or] at hx
                  cases outNode with
                  | none => simp at hx
                  | some ocfg => exact houtRoute ocfg rfl hx
      · rw [Bool.not_eq_true] at hk
        have hk' : knownOutputType (OutputterConfig.mk t msc mc rc cc tc rwc clc).type = false := by
          simpa [OutputterConfig.type] using hk
        rw [extractOutputterCore_unknown_type f _ hk']
        rfl
    · intro f cs hsz h
      cases cs with
      | nil => simp [outsHaveUnknownType] at h
      | cons c rest =>
        simp only [outsHaveUnknownType, Bool.or_eq_true] at h
        have hszc : sizeOf c < n := by
          simp only [List.cons.sizeOf_spec] at hsz
          omega
        have hszr : sizeOf rest < n := by
          simp only [List.cons.sizeOf_spec] at hsz
          omega
        rw [FileStorage.extractOutputterList]
        rcases h with h | h
        · have ih := (IH (sizeOf c) hszc).1 f c (le_refl _) h
          cases hres : f.extractOutputterCore c with
          | err e => rfl
          | nilPanic => rfl
          | ok v => rw [hres] at ih; simp [Res.isOk] at ih
        · have ih := (IH (sizeOf rest) hszr).2 f rest (le_refl _) h
          cases hres : f.extractOutputterCore c with
          | err e => rfl
          | nilPanic => rfl
          | ok v =>
            cases hres2 : f.extractOutputterList rest with
            | err e => rfl
            | nilPanic => rfl
            | ok w => rw [hres2] at ih; simp [Res.isOk] at ih

theorem buildRule_not_ok_of (f : FileStorage) (r : ChannelRule)
    (h : (f.extractConverter r.settings.converter).isOk = false ∨
         (f.extractProcessor r.settings.processor).isOk = false ∨
         (f.extractOutputter r.settings.outputter).isOk = false) :
    (f.buildRule r).isOk = false := by
  rw [FileStorage.buildRule]
  cases h1 : f.extractConverter r.settings.converter with
  | err e => rfl
  | nilPanic => rfl
  | ok conv =>
    cases h2 : f.extractProcessor r.settings.processor with
    | err e => rfl
    | nilPanic => rfl
    | ok proc =>
      cases h3 : f.extractOutputter r.settings.outputter with
      | err e => rfl
      | nilPanic => rfl
      | ok outp =>
        rw [h1, h2, h3] at h
        simp [Res.isOk] at h

theorem buildRule_hasUnknown_not_ok (f : FileStorage) (r : ChannelRule)
    (h : r.hasUnknownType = true) : (f.buildRule r).isOk = false := by
  apply buildRule_not_ok_of
  rw [ChannelRule.hasUnknownType] at h
  simp only [Bool.or_eq_true] at h
  rcases h with (h | h) | h
  · left
    cases hc : r.settings.converter with
    | none => rw [hc] at h; simp at h
    | some c =>
      rw [hc] at h
      simp only [ConverterConfig.hasUnknownType, Bool.not_eq_true'] at h
      rw [extractConverter_unknown_type f c h]
      rfl
  · right; left
    cases hc : r.settings.processor with
    | none => rw [hc] at h; simp at h
    | some c =>
      rw [hc] at h
      rw [extractProcessor_some]
      exact (processorUnknownAux (sizeOf c)).1 f c (le_refl _) h
  · right; right
    cases hc : r.settings.outputter with
    | none => rw [hc] at h; simp at h
    | some c =>
      rw [hc] at h
      rw [extractOutputter_some]
      exact (outputterUnknownAux (sizeOf c)).1 f c (le_refl _) h

theorem buildRules_not_ok_of_mem (f : FileStorage) (rules : List ChannelRule)
    (r : ChannelRule) (hmem : r ∈ rules) (h : (f.buildRule r).isOk = false) :
    (f.buildRules rules).isOk = false := by
  induction rules with
  | nil => cases hmem
  | cons a rest IH =>
    rw [FileStorage.buildRules]
    cases ha : f.buildRule a with
    | err e => rfl
    | nilPanic => rfl
    | ok v =>
      rcases List.mem_cons.mp hmem with heq | hmem'
      · subst heq; rw [ha] at h; simp [Res.isOk] at h
      · cases hrest : f.buildRules rest with
        | err e => rfl
        | nilPanic => rfl
        | ok w =>
          have := IH hmem'
          rw [hrest] at this
          simp [Res.isOk] at this

theorem ListChannelRules_hasUnknown_not_ok (f : FileStorage) (d : ChannelRules)
    (h : d.hasUnknownType = true) : ((f.ListChannelRules d).2).isOk = false := by
  rw [ChannelRules.hasUnknownType, List.any_eq_true] at h
  obtain ⟨r, hmem, hr⟩ := h
  exact buildRules_not_ok_of_mem _ d.rules r hmem
    (buildRule_hasUnknown_not_ok _ r hr)

theorem extractProcessorCore_multiple (f : FileStorage)
    (dc : Option DropFieldsProcessorConfig) (kc : Option KeepFieldsProcessorConfig)
    (procs : List ProcessorConfig) :
    f.extractProcessorCore (.mk "multiple" dc kc (some (.mk procs))) =
      match f.extractProcessorList procs with
      | .err e => .err e
      | .nilPanic => .nilPanic
      | .ok processors => .ok (some (.multiple processors)) := rfl

theorem extractConditionCheckerCore_multiple (f : FileStorage)
    (ct : ConditionType) (conds : List ConditionCheckerConfig)
    (nc : Option NumberCompareConditionConfig) :
    f.extractConditionCheckerCore (.mk "multiple" (some (.mk ct conds)) nc) =
      match f.extractConditionCheckerList conds with
      | .err e => .err e
      | .nilPanic => .nilPanic
      | .ok conditions => .ok (some (.multiple ct conditions)) := rfl

theorem extractOutputterCore_remoteWrite (f : FileStorage)
    (msc : Option ManagedStreamOutputConfig) (mc : Option MultipleOutputterConfig)
    (rc : Option RedirectOutputConfig) (cc : Option ConditionalOutputConfig)
    (tc : Option ThresholdOutputConfig) (clc : Option ChangeLogOutputConfig)
    (uid : String) :
    f.extractOutputterCore (.mk "remoteWrite" msc mc rc cc tc (some ⟨uid⟩) clc) =
      match f.getRemoteWriteConfig uid with
      | (_, false) => .err ("unknown remote write backend uid: " ++ uid)
      | (none, true) => .nilPanic
      | (some cfg, true) => .ok (some (.remoteWrite cfg)) := rfl

theorem getRemoteWriteConfigFrom_not_found (l : List RemoteWriteBackend) (uid : String)
    (h : ∀ b ∈ l, b.uid ≠ uid) : getRemoteWriteConfigFrom l uid = (none, false) := by
  induction l with
  | nil => rfl
  | cons b rest IH =>
    rw [getRemoteWriteConfigFrom]
    rw [if_neg]
    · exact IH fun x hx => h x (List.mem_cons_of_mem b hx)
    · simp only [beq_iff_eq]
      exact h b (List.mem_cons_self b rest)

theorem ListChannelRules_snd (f : FileStorage) (d : ChannelRules) :
    (f.ListChannelRules d).2 = (f.ListChannelRules d).1.buildRules d.rules := rfl

theorem buildRules_append_err (f : FileStorage) (pre : List ChannelRule)
    (r : ChannelRule) (rest : List ChannelRule) (e : String) (l : List LiveChannelRule)
    (h1 : f.buildRules pre = .ok l) (h2 : f.buildRule r = .err e) :
    f.buildRules (pre ++ r :: rest) = .err e := by
  induction pre generalizing l with
  | nil =>
    rw [List.nil_append, FileStorage.buildRules, h2]
  | cons a p IH =>
    rw [FileStorage.buildRules] at h1
    cases ha : f.buildRule a with
    | err e' => rw [ha] at h1; cases h1
    | nilPanic => rw [ha] at h1; cases h1
    | ok v =>
      rw [ha] at h1
      cases hp : f.buildRules p with
      | err e' => rw [hp] at h1; cases h1
      | nilPanic => rw [hp] at h1; cases h1
      | ok w =>
        rw [List.cons_append, FileStorage.buildRules, ha, IH w hp]

theorem extractProcessorList_ok_forall2 (f : FileStorage) (cs : List ProcessorConfig)
    (l : List (Option Processor)) (h : f.extractProcessorList cs = .ok l) :
    List.Forall₂ (fun c p => f.extractProcessor (some c) = .ok p) cs l := by
  induction cs generalizing l with
  | nil => rw [FileStorage.extractProcessorList] at h; cases h; exact .nil
  | cons c rest IH =>
    rw [FileStorage.extractProcessorList] at h
    cases hc : f.extractProcessorCore c with
    | err e => rw [hc] at h; cases h
    | nilPanic => rw [hc] at h; cases h
    | ok p =>
      rw [hc] at h
      cases hrest : f.extractProcessorList rest with
      | err e => rw [hrest] at h; cases h
      | nilPanic => rw [hrest] at h; cases h
      | ok ps =>
        rw [hrest] at h
        cases h
        exact .cons (by rw [extractProcessor_some]; exact hc) (IH ps hrest)

theorem extractConditionCheckerList_ok_forall2 (f : FileStorage)
    (cs : List ConditionCheckerConfig) (l : List (Option ConditionChecker))
    (h : f.extractConditionCheckerList cs = .ok l) :
    List.Forall₂ (fun c p => f.extractConditionChecker (some c) = .ok p) cs l := by
  induction cs generalizing l with
  | nil => rw [FileStorage.extractConditionCheckerList] at h; cases h; exact .nil
  | cons c rest IH =>
    rw [FileStorage.extractConditionCheckerList] at h
    cases hc : f.extractConditionCheckerCore c with
    | err e => rw [hc] at h; cases h
    | nilPanic => rw [hc] at h; cases h
    | ok p =>
      rw [hc] at h
      cases hrest : f.extractConditionCheckerList rest with
      | err e => rw [hrest] at h; cases h
      | nilPanic => rw [hrest] at h; cases h
      | ok ps =>
        rw [hrest] at h
        cases h
        exact .cons (by rw [extractConditionChecker_some]; exact hc) (IH ps hrest)

theorem extractOutputterList_ok_forall2 (f : FileStorage) (cs : List OutputterConfig)
    (l : List (Option Outputter)) (h : f.extractOutputterList cs = .ok l) :
    List.Forall₂ (fun c p => f.extractOutputter (some c) = .ok p) cs l := by
  induction cs generalizing l with
  | nil => rw [FileStorage.extractOutputterList] at h; cases h; exact .nil
  | cons c rest IH =>
    rw [FileStorage.extractOutputterList] at h
    cases hc : f.extractOutputterCore c with
    | err e => rw [hc] at h; cases h
    | nilPanic => rw [hc] at h; cases h
    | ok p =>
      rw [hc] at h
      cases hrest : f.extractOutputterList rest with
      | err e => rw [hrest] at h; cases h
      | nilPanic => rw [hrest] at h; cases h
      | ok ps =>
        rw [hrest] at h
        cases h
        exact .cons (by rw [extractOutputter_some]; exact hc) (IH ps hrest)

theorem extractProcessorList_append_err (f : FileStorage) (pre : List ProcessorConfig)
    (c : ProcessorConfig) (rest : List ProcessorConfig) (e : String)
    (l : List (Option Processor))
    (h1 : f.extractProcessorList pre = .ok l) (h2 : f.extractProcessorCore c = .err e) :
    f.extractProcessorList (pre ++ c :: rest) = .err e := by
  induction pre generalizing l with
  | nil => rw [List.nil_append, FileStorage.extractProcessorList, h2]
  | cons a p IH =>
    rw [FileStorage.extractProcessorList] at h1
    cases ha : f.extractProcessorCore a with
    | err e' => rw [ha] at h1; cases h1
    | nilPanic => rw [ha] at h1; cases h1
    | ok v =>
      rw [ha] at h1
      cases hp : f.extractProcessorList p with
      | err e' => rw [hp] at h1; cases h1
      | nilPanic => rw [hp] at h1; cases h1
      | ok w =>
        rw [List.cons_append, FileStorage.extractProcessorList, ha, IH w hp]

theorem extractConditionCheckerList_append_err (f : FileStorage)
    (pre : List ConditionCheckerConfig) (c : ConditionCheckerConfig)
    (rest : List ConditionCheckerConfig) (e : String) (l : List (Option ConditionChecker))
    (h1 : f.extractConditionCheckerList pre = .ok l)
    (h2 : f.extractConditionCheckerCore c = .err e) :
    f.extractConditionCheckerList (pre ++ c :: rest) = .err e := by
  induction pre generalizing l with
  | nil => rw [List.nil_append, FileStorage.extractConditionCheckerList, h2]
  | cons a p IH =>
    rw [FileStorage.extractConditionCheckerList] at h1
    cases ha : f.extractConditionCheckerCore a with
    | err e' => rw [ha] at h1; cases h1
    | nilPanic => rw [ha] at h1; cases h1
    | ok v =>
      rw [ha] at h1
      cases hp : f.extractConditionCheckerList p with
      | err e' => rw [hp] at h1; cases h1
      | nilPanic => rw [hp] at h1; cases h1
      | ok w =>
        rw [List.cons_append, FileStorage.extractConditionCheckerList, ha, IH w hp]

theorem extractOutputterList_append_err (f : FileStorage) (pre : List OutputterConfig)
    (c : OutputterConfig) (rest : List OutputterConfig) (e : String)
    (l : List (Option Outputter))
    (h1 : f.extractOutputterList pre = .ok l) (h2 : f.extractOutputterCore c = .err e) :
    f.extractOutputterList (pre ++ c :: rest) = .err e := by
  induction pre generalizing l with
  | nil => rw [List.nil_append, FileStorage.extractOutputterList, h2]
  | cons a p IH =>
    rw [FileStorage.extractOutputterList] at h1
    cases ha : f.extractOutputterCore a with
    | err e' => rw [ha] at h1; cases h1
    | nilPanic => rw [ha] at h1; cases h1
    | ok v =>
      rw [ha] at h1
      cases hp : f.extractOutputterList p with
      | err e' => rw [hp] at h1; cases h1
      | nilPanic => rw [hp] at h1; cases h1
      | ok w =>
        rw [List.cons_append, FileStorage.extractOutputterList, ha, IH w hp]

/-- A concrete document whose single rule carries a converter ConfigNode
with an unknown discriminator. -/
def docUnknown : ChannelRules :=
  { rules := [⟨"p1", ⟨some ⟨"bogus", none, none, none, none⟩, none, none⟩⟩],
    remoteWriteBackends := [] }

/-- C1: a ConfigNode with an unknown `type` discriminator, of any kind and
at any nesting depth reachable by the resolver inside a rule's
configuration tree, makes the rule-set load fail and return no rules
(`isOk = false`: the result is an error — or, if an unrelated node panics
first, no value at all — never a rule list), and each extractor reports an
unknown-type node with an error naming the unknown discriminator. -/
theorem C1_unknown_type_fails_load :
    ∀ (f : FileStorage) (d : ChannelRules),
      (d.hasUnknownType = true → ((f.ListChannelRules d).2).isOk = false) ∧
      (∀ c : ConverterConfig, knownConverterType c.type = false →
          f.extractConverter (some c) = .err ("unknown converter type: " ++ c.type)) ∧
      (∀ c : ProcessorConfig, knownProcessorType c.type = false →
          f.extractProcessor (some c) = .err ("unknown processor type: " ++ c.type)) ∧
      (∀ c : ConditionCheckerConfig, knownConditionType c.type = false →
          f.extractConditionChecker (some c) = .err ("unknown condition type: " ++ c.type)) ∧
      (∀ c : OutputterConfig, knownOutputType c.type = false →
          f.extractOutputter (some c) = .err ("unknown output type: " ++ c.type)) := by
  intro f d
  refine ⟨ListChannelRules_hasUnknown_not_ok f d,
    fun c h => extractConverter_unknown_type f c h,
    fun c h => ?_, fun c h => ?_, fun c h => ?_⟩
  · rw [extractProcessor_some]
    exact extractProcessorCore_unknown_type f c h
  · rw [extractConditionChecker_some]
    exact extractConditionCheckerCore_unknown_type f c h
  · rw [extractOutputter_some]
    exact extractOutputterCore_unknown_type f c h

/-- Witness for C1 at a concrete document with an unknown converter type. -/
theorem C1_unknown_type_fails_load_witness :
    docUnknown.hasUnknownType = true ∧
    ((sampleStorage.ListChannelRules docUnknown).2).isOk = false :=
  ⟨rfl, (C1_unknown_type_fails_load sampleStorage docUnknown).1 rfl⟩

/-- Counterexample to C2 as stated: the known outputter discriminators
`ManagedStream` and `localSubscribers` build successfully even though
every payload field of the node is absent — no "missing configuration"
error is raised for them. -/
theorem C2_counterexample :
    sampleStorage.extractOutputter
        (some (.mk "ManagedStream" none none none none none none none)) =
      .ok (some (.managedStream sampleStorage.managedStream)) ∧
    sampleStorage.extractOutputter
        (some (.mk "localSubscribers" none none none none none none none)) =
      .ok (some (.localSubscribers sampleStorage.node)) := ⟨rfl, rfl⟩

/-- C2 (amended): every known discriminator that checks a payload field
(all converter, processor and condition discriminators, and the outputter
discriminators redirect, multiple, conditional, threshold, remoteWrite,
changeLog) fails with a "missing configuration" error naming the type
when its corresponding payload field is absent; the outputter
discriminators `ManagedStream` and `localSubscribers` never check a
payload and build successfully with all payload fields absent. -/
theorem C2_missing_config_fails :
    ∀ f : FileStorage,
      (∀ (b : Option ExactJsonConverterConfig) (c : Option AutoInfluxConverterConfig)
         (d : Option JsonFrameConverterConfig),
        f.extractConverter (some ⟨"jsonAuto", none, b, c, d⟩) =
          .err "missing configuration for jsonAuto") ∧
      (∀ (a : Option AutoJsonConverterConfig) (c : Option AutoInfluxConverterConfig)
         (d : Option JsonFrameConverterConfig),
        f.extractConverter (some ⟨"jsonExact", a, none, c, d⟩) =
          .err "missing configuration for jsonExact") ∧
      (∀ (a : Option AutoJsonConverterConfig) (b : Option ExactJsonConverterConfig)
         (c : Option AutoInfluxConverterConfig),
        f.extractConverter (some ⟨"jsonFrame", a, b, c, none⟩) =
          .err "missing configuration for jsonFrame") ∧
      (∀ (a : Option AutoJsonConverterConfig) (b : Option ExactJsonConverterConfig)
         (d : Option JsonFrameConverterConfig),
        f.extractConverter (some ⟨"influxAuto", a, b, none, d⟩) =
          .err "missing configuration for influxAuto") ∧
      (∀ (kc : Option KeepFieldsProcessorConfig) (mc : Option MultipleProcessorConfig),
        f.extractProcessor (some (.mk "dropFields" none kc mc)) =
          .err "missing configuration for dropFields") ∧
      (∀ (dc : Option DropFieldsProcessorConfig) (mc : Option MultipleProcessorConfig),
        f.extractProcessor (some (.mk "keepFields" dc none mc)) =
          .err "missing configuration for keepFields") ∧
      (∀ (dc : Option DropFieldsProcessorConfig) (kc : Option KeepFieldsProcessorConfig),
        f.extractProcessor (some (.mk "multiple" dc kc none)) =
          .err "missing configuration for multiple") ∧
      (∀ mc : Option MultipleConditionCheckerConfig,
        f.extractConditionChecker (some (.mk "numberCompare" mc none)) =
          .err "missing configuration for numberCompare") ∧
      (∀ nc : Option NumberCompareConditionConfig,
        f.extractConditionChecker (some (.mk "multiple" none nc)) =
          .err "missing configuration for multiple") ∧
      (∀ (msc : Option ManagedStreamOutputConfig) (mc : Option MultipleOutputterConfig)
         (cc : Option ConditionalOutputConfig) (tc : Option ThresholdOutputConfig)
         (rwc : Option RemoteWriteOutputConfig) (clc : Option ChangeLogOutputConfig),
        f.extractOutputter (some (.mk "redirect" msc mc none cc tc rwc clc)) =
          .err "missing configuration for redirect") ∧
      (∀ (msc : Option ManagedStreamOutputConfig) (rc : Option RedirectOutputConfig)
         (cc : Option ConditionalOutputConfig) (tc : Option ThresholdOutputConfig)
         (rwc : Option RemoteWriteOutputConfig) (clc : Option ChangeLogOutputConfig),
        f.extractOutputter (some (.mk "multiple" msc none rc cc tc rwc clc)) =
          .err "missing configuration for multiple") ∧
      (∀ (msc : Option ManagedStreamOutputConfig) (mc : Option MultipleOutputterConfig)
         (rc : Option RedirectOutputConfig) (tc : Option ThresholdOutputConfig)
         (rwc : Option RemoteWriteOutputConfig) (clc : Option ChangeLogOutputConfig),
        f.extractOutputter (some (.mk "conditional" msc mc rc none tc rwc clc)) =
          .err "missing configuration for conditional") ∧
      (∀ (msc : Option ManagedStreamOutputConfig) (mc : Option MultipleOutputterConfig)
         (rc : Option RedirectOutputConfig) (cc : Option ConditionalOutputConfig)
         (rwc : Option RemoteWriteOutputConfig) (clc : Option ChangeLogOutputConfig),
        f.extractOutputter (some (.mk "threshold" msc mc rc cc none rwc clc)) =
          .err "missing configuration for threshold") ∧
      (∀ (msc : Option ManagedStreamOutputConfig) (mc : Option MultipleOutputterConfig)
         (rc : Option RedirectOutputConfig) (cc : Option ConditionalOutputConfig)
         (tc : Option ThresholdOutputConfig) (clc : Option ChangeLogOutputConfig),
        f.extractOutputter (some (.mk "remoteWrite" msc mc rc cc tc none clc)) =
          .err "missing configuration for remoteWrite") ∧
      (∀ (msc : Option ManagedStreamOutputConfig) (mc : Option MultipleOutputterConfig)
         (rc : Option RedirectOutputConfig) (cc : Option ConditionalOutputConfig)
         (tc : Option ThresholdOutputConfig) (rwc : Option RemoteWriteOutputConfig),
        f.extractOutputter (some (.mk "changeLog" msc mc rc cc tc rwc none)) =
          .err "missing configuration for changeLog") ∧
      (∀ (msc : Option ManagedStreamOutputConfig) (mc : Option MultipleOutputterConfig)
         (rc : Option RedirectOutputConfig) (cc : Option ConditionalOutputConfig)
         (tc : Option ThresholdOutputConfig) (rwc : Option RemoteWriteOutputConfig)
         (clc : Option ChangeLogOutputConfig),
        f.extractOutputter (some (.mk "ManagedStream" msc mc rc cc tc rwc clc)) =
          .ok (some (.managedStream f.managedStream))) ∧
      (∀ (msc : Option ManagedStreamOutputConfig) (mc : Option MultipleOutputterConfig)
         (rc : Option RedirectOutputConfig) (cc : Option ConditionalOutputConfig)
         (tc : Option ThresholdOutputConfig) (rwc : Option RemoteWriteOutputConfig)
         (clc : Option ChangeLogOutputConfig),
        f.extractOutputter (some (.mk "localSubscribers" msc mc rc cc tc rwc clc)) =
          .ok (some (.localSubscribers f.node))) := by
  intro f
  refine ⟨?_, ?_, ?_, ?_, ?_, ?_, ?_, ?_, ?_, ?_, ?_, ?_, ?_, ?_, ?_, ?_, ?_⟩ <;>
    intros <;> rfl

/-- A loader state holding one previously resolved remote write backend. -/
def storageOld : FileStorage :=
  { node := {}, managedStream := {}, frameStorage := {},
    remoteWriteBackends := [⟨"old", some {}⟩] }

/-- A document that fails to build (unknown converter type) while carrying
a different remote write backend list. -/
def docBroken : ChannelRules :=
  { rules := [⟨"p2", ⟨some ⟨"bogus", none, none, none, none⟩, none, none⟩⟩],
    remoteWriteBackends := [⟨"new", none⟩] }

/-- Counterexample to C5 as stated: loading a document that parses but
fails to build still replaces the loader's stored remote-write backend
list with the new document's list — the previously held backend state is
NOT left intact. -/
theorem C5_counterexample :
    (storageOld.ListChannelRules docBroken).2 = .err "unknown converter type: bogus" ∧
    (storageOld.ListChannelRules docBroken).1.remoteWriteBackends =
      [⟨"new", none⟩] ∧
    storageOld.remoteWriteBackends ≠ [⟨"new", none⟩] := by
  refine ⟨rfl, rfl, ?_⟩
  decide

/-- C5 (amended): when `ListChannelRules` returns an error no rules are
returned, but the loader's stored remote-write backend list is
unconditionally replaced by the new document's `remoteWriteBackends`
before any rule is built — so that part of the new document's content does
replace the previously held state even on a failed load. -/
theorem C5_backends_always_replaced :
    ∀ (f : FileStorage) (d : ChannelRules),
      ((f.ListChannelRules d).1).remoteWriteBackends = d.remoteWriteBackends ∧
      (∀ (e : String) (rs : List LiveChannelRule),
        (f.ListChannelRules d).2 = .err e → (f.ListChannelRules d).2 ≠ .ok rs) := by
  intro f d
  refine ⟨rfl, fun e rs he hok => ?_⟩
  rw [he] at hok
  cases hok

/-- Witness for C5 (amended) at the concrete broken reload. -/
theorem C5_backends_always_replaced_witness :
    (storageOld.ListChannelRules docBroken).1.remoteWriteBackends =
      docBroken.remoteWriteBackends ∧
    (storageOld.ListChannelRules docBroken).2 ≠
      .ok ([] : List LiveChannelRule) :=
  ⟨(C5_backends_always_replaced storageOld docBroken).1,
   (C5_backends_always_replaced storageOld docBroken).2
     "unknown converter type: bogus" [] rfl⟩

/-- C6: for each of the four stage extractors, a nil ConfigNode yields a
nil stage and no error. -/
theorem C6_absent_node_absent_stage :
    ∀ f : FileStorage,
      f.extractConverter none = .ok none ∧
      f.extractProcessor none = .ok none ∧
      f.extractConditionChecker none = .ok none ∧
      f.extractOutputter none = .ok none := by
  intro f
  exact ⟨rfl, rfl, rfl, rfl⟩

/-- C3: a `remoteWrite` outputter node whose UID matches no stored backend
fails the build with an error naming the UID; when the lookup succeeds the
resolved settings value is copied into the built outputter during
`extractOutputter` (build-time resolution). -/
theorem C3_remote_write_uid_resolution :
    ∀ (f : FileStorage) (uid : String)
      (msc : Option ManagedStreamOutputConfig) (mc : Option MultipleOutputterConfig)
      (rc : Option RedirectOutputConfig) (cc : Option ConditionalOutputConfig)
      (tc : Option ThresholdOutputConfig) (clc : Option ChangeLogOutputConfig),
      ((∀ b ∈ f.remoteWriteBackends, b.uid ≠ uid) →
        f.extractOutputter (some (.mk "remoteWrite" msc mc rc cc tc (some ⟨uid⟩) clc)) =
          .err ("unknown remote write backend uid: " ++ uid)) ∧
      (∀ cfg : RemoteWriteConfig, f.getRemoteWriteConfig uid = (some cfg, true) →
        f.extractOutputter (some (.mk "remoteWrite" msc mc rc cc tc (some ⟨uid⟩) clc)) =
          .ok (some (.remoteWrite cfg))) := by
  intro f uid msc mc rc cc tc clc
  constructor
  · intro h
    rw [extractOutputter_some, extractOutputterCore_remoteWrite]
    have hl : f.getRemoteWriteConfig uid = (none, false) :=
      getRemoteWriteConfigFrom_not_found f.remoteWriteBackends uid h
    rw [hl]
  · intro cfg hfind
    rw [extractOutputter_some, extractOutputterCore_remoteWrite, hfind]

/-- A loader state holding one backend with UID `a` and present settings. -/
def storageWithBackend : FileStorage :=
  { node := {}, managedStream := {}, frameStorage := {},
    remoteWriteBackends := [⟨"a", some {}⟩] }

/-- Witness for C3: a dangling UID fails, a resolvable UID builds. -/
theorem C3_remote_write_uid_resolution_witness :
    storageWithBackend.extractOutputter
        (some (.mk "remoteWrite" none none none none none (some ⟨"missing"⟩) none)) =
      .err "unknown remote write backend uid: missing" ∧
    storageWithBackend.extractOutputter
        (some (.mk "remoteWrite" none none none none none (some ⟨"a"⟩) none)) =
      .ok (some (.remoteWrite {})) :=
  ⟨(C3_remote_write_uid_resolution storageWithBackend "missing"
      none none none none none none).1 (by decide),
   (C3_remote_write_uid_resolution storageWithBackend "a"
      none none none none none none).2 {} rfl⟩

/-- C4: a failing stage extraction (converter, processor or outputter)
turns into that rule's build error; if all rules before the failing rule
build successfully, `ListChannelRules` still returns exactly that single
error, and an error return is never a rule list. -/
theorem C4_stage_failure_aborts_load :
    ∀ (f : FileStorage) (d : ChannelRules) (pre rest : List ChannelRule)
      (r : ChannelRule) (e : String) (l : List LiveChannelRule),
      (d.rules = pre ++ r :: rest →
        (f.ListChannelRules d).1.buildRules pre = .ok l →
        (f.ListChannelRules d).1.buildRule r = .err e →
        (f.ListChannelRules d).2 = .err e) ∧
      (f.extractConverter r.settings.converter = .err e → f.buildRule r = .err e) ∧
      (∀ conv, f.extractConverter r.settings.converter = .ok conv →
        f.extractProcessor r.settings.processor = .err e → f.buildRule r = .err e) ∧
      (∀ conv proc, f.extractConverter r.settings.converter = .ok conv →
        f.extractProcessor r.settings.processor = .ok proc →
        f.extractOutputter r.settings.outputter = .err e → f.buildRule r = .err e) ∧
      (∀ rs : List LiveChannelRule,
        (f.ListChannelRules d).2 = .err e → (f.ListChannelRules d).2 ≠ .ok rs) := by
  intro f d pre rest r e l
  refine ⟨?_, ?_, ?_, ?_, ?_⟩
  · intro hd h1 h2
    rw [ListChannelRules_snd, hd]
    exact buildRules_append_err _ pre r rest e l h1 h2
  · intro h
    rw [FileStorage.buildRule, h]
  · intro conv h1 h2
    rw [FileStorage.buildRule, h1, h2]
  · intro conv proc h1 h2 h3
    rw [FileStorage.buildRule, h1, h2, h3]
  · intro rs he hok
    rw [he] at hok
    cases hok

/-- A rule with no stages configured: builds successfully. -/
def goodRule : ChannelRule := ⟨"g", ⟨none, none, none⟩⟩

/-- A rule whose converter node has an unknown discriminator. -/
def badRule : ChannelRule := ⟨"b", ⟨some ⟨"bogus", none, none, none, none⟩, none, none⟩⟩

/-- A document whose first rule builds and whose second rule fails. -/
def docMixed : ChannelRules := ⟨[goodRule, badRule], []⟩

/-- Witness for C4: the load of `docMixed` returns the second rule's
error even though the first rule built successfully. -/
theorem C4_stage_failure_aborts_load_witness :
    (sampleStorage.ListChannelRules docMixed).2 = .err "unknown converter type: bogus" :=
  (C4_stage_failure_aborts_load sampleStorage docMixed [goodRule] [] badRule
      "unknown converter type: bogus" [⟨"g", none, none, none⟩]).1 rfl rfl rfl

/-- C7: a `multiple` processor / condition checker / outputter node builds
its children with the same resolution rules as a top-level node
(`List.Forall₂` over the child list, hence in declared order and with
matching length), the composite holds the built children in that same
order, and a failing child aborts the whole list extraction with that
child's error. -/
theorem C7_multiple_resolves_children_in_order :
    ∀ f : FileStorage,
      ((∀ (msc : Option ManagedStreamOutputConfig) (rc : Option RedirectOutputConfig)
          (cc : Option ConditionalOutputConfig) (tc : Option ThresholdOutputConfig)
          (rwc : Option RemoteWriteOutputConfig) (clc : Option ChangeLogOutputConfig)
          (outs : List OutputterConfig),
         (∀ l, f.extractOutputterList outs = .ok l →
           f.extractOutputter
               (some (.mk "multiple" msc (some (.mk outs)) rc cc tc rwc clc)) =
             .ok (some (.multiple l))) ∧
         (∀ e, f.extractOutputterList outs = .err e →
           f.extractOutputter
               (some (.mk "multiple" msc (some (.mk outs)) rc cc tc rwc clc)) =
             .err e)) ∧
       (∀ (outs : List OutputterConfig) (l : List (Option Outputter)),
         f.extractOutputterList outs = .ok l →
           List.Forall₂ (fun c p => f.extractOutputter (some c) = .ok p) outs l) ∧
       (∀ (pre : List OutputterConfig) (c : OutputterConfig)
          (rest : List OutputterConfig) (e : String) (l : List (Option Outputter)),
         f.extractOutputterList pre = .ok l → f.extractOutputter (some c) = .err e →
           f.extractOutputterList (pre ++ c :: rest) = .err e)) ∧
      ((∀ (dc : Option DropFieldsProcessorConfig) (kc : Option KeepFieldsProcessorConfig)
          (procs : List ProcessorConfig),
         (∀ l, f.extractProcessorList procs = .ok l →
           f.extractProcessor (some (.mk "multiple" dc kc (some (.mk procs)))) =
             .ok (some (.multiple l))) ∧
         (∀ e, f.extractProcessorList procs = .err e →
           f.extractProcessor (some (.mk "multiple" dc kc (some (.mk procs)))) =
             .err e)) ∧
       (∀ (procs : List ProcessorConfig) (l : List (Option Processor)),
         f.extractProcessorList procs = .ok l →
           List.Forall₂ (fun c p => f.extractProcessor (some c) = .ok p) procs l) ∧
       (∀ (pre : List ProcessorConfig) (c : ProcessorConfig)
          (rest : List ProcessorConfig) (e : String) (l : List (Option Processor)),
         f.extractProcessorList pre = .ok l → f.extractProcessor (some c) = .err e →
           f.extractProcessorList (pre ++ c :: rest) = .err e)) ∧
      ((∀ (ct : ConditionType) (nc : Option NumberCompareConditionConfig)
          (conds : List ConditionCheckerConfig),
         (∀ l, f.extractConditionCheckerList conds = .ok l →
           f.extractConditionChecker (some (.mk "multiple" (some (.mk ct conds)) nc)) =
             .ok (some (.multiple ct l))) ∧
         (∀ e, f.extractConditionCheckerList conds = .err e →
           f.extractConditionChecker (some (.mk "multiple" (some (.mk ct conds)) nc)) =
             .err e)) ∧
       (∀ (conds : List ConditionCheckerConfig) (l : List (Option ConditionChecker)),
         f.extractConditionCheckerList conds = .ok l →
           List.Forall₂ (fun c p => f.extractConditionChecker (some c) = .ok p) conds l) ∧
       (∀ (pre : List ConditionCheckerConfig) (c : ConditionCheckerConfig)
          (rest : List ConditionCheckerConfig) (e : String)
          (l : List (Option ConditionChecker)),
         f.extractConditionCheckerList pre = .ok l →
           f.extractConditionChecker (some c) = .err e →
           f.extractConditionCheckerList (pre ++ c :: rest) = .err e)) := by
  intro f
  refine ⟨⟨?_, ?_, ?_⟩, ⟨?_, ?_, ?_⟩, ⟨?_, ?_, ?_⟩⟩
  · intro msc rc cc tc rwc clc outs
    constructor
    · intro l h
      rw [extractOutputter_some, extractOutputterCore_multiple, h]
    · intro e h
      rw [extractOutputter_some, extractOutputterCore_multiple, h]
  · exact fun outs l h => extractOutputterList_ok_forall2 f outs l h
  · intro pre c rest e l h1 h2
    rw [extractOutputter_some] at h2
    exact extractOutputterList_append_err f pre c rest e l h1 h2
  · intro dc kc procs
    constructor
    · intro l h
      rw [extractProcessor_some, extractProcessorCore_multiple, h]
    · intro e h
      rw [extractProcessor_some, extractProcessorCore_multiple, h]
  · exact fun procs l h => extractProcessorList_ok_forall2 f procs l h
  · intro pre c rest e l h1 h2
    rw [extractProcessor_some] at h2
    exact extractProcessorList_append_err f pre c rest e l h1 h2
  · intro ct nc conds
    constructor
    · intro l h
      rw [extractConditionChecker_some, extractConditionCheckerCore_multiple, h]
    · intro e h
      rw [extractConditionChecker_some, extractConditionCheckerCore_multiple, h]
  · exact fun conds l h => extractConditionCheckerList_ok_forall2 f conds l h
  · intro pre c rest e l h1 h2
    rw [extractConditionChecker_some] at h2
    exact extractConditionCheckerList_append_err f pre c rest e l h1 h2

/-- A `localSubscribers` outputter node (always builds). -/
def lsNode : OutputterConfig := .mk "localSubscribers" none none none none none none none

/-- An outputter node with an unknown discriminator. -/
def bogusOutNode : OutputterConfig := .mk "bogus" none none none none none none none

/-- Witness for C7: a failing second child aborts the child-list
extraction with its own error, and a successful child list is pointwise
built in order. -/
theorem C7_multiple_resolves_children_in_order_witness :
    sampleStorage.extractOutputterList [lsNode, bogusOutNode] =
      .err "unknown output type: bogus" ∧
    List.Forall₂ (fun c p => sampleStorage.extractOutputter (some c) = .ok p)
      [lsNode] [some (.localSubscribers sampleStorage.node)] :=
  ⟨(C7_multiple_resolves_children_in_order sampleStorage).1.2.2
      [lsNode] bogusOutNode [] "unknown output type: bogus"
      [some (.localSubscribers sampleStorage.node)] rfl rfl,
   (C7_multiple_resolves_children_in_order sampleStorage).1.2.1
      [lsNode] [some (.localSubscribers sampleStorage.node)] rfl⟩

/-- C8: a `conditional` outputter node resolves exactly its `condition`
sub-node (as a ConditionChecker) and its `outputter` sub-node (as an
Outputter); an error from either sub-node becomes the whole build's
error, and when both succeed the conditional output is built from the two
resolved sub-stages. -/
theorem C8_conditional_resolves_two_subnodes :
    ∀ (f : FileStorage) (msc : Option ManagedStreamOutputConfig)
      (mc : Option MultipleOutputterConfig) (rc : Option RedirectOutputConfig)
      (tc : Option ThresholdOutputConfig) (rwc : Option RemoteWriteOutputConfig)
      (clc : Option ChangeLogOutputConfig)
      (condNode : Option ConditionCheckerConfig) (outNode : Option OutputterConfig),
      (∀ e, f.extractConditionChecker condNode = .err e →
        f.extractOutputter
            (some (.mk "conditional" msc mc rc (some (.mk condNode outNode)) tc rwc clc)) =
          .err e) ∧
      (∀ cond e, f.extractConditionChecker condNode = .ok cond →
        f.extractOutputter outNode = .err e →
        f.extractOutputter
            (some (.mk "conditional" msc mc rc (some (.mk condNode outNode)) tc rwc clc)) =
          .err e) ∧
      (∀ cond outp, f.extractConditionChecker condNode = .ok cond →
        f.extractOutputter outNode = .ok outp →
        f.extractOutputter
            (some (.mk "conditional" msc mc rc (some (.mk condNode outNode)) tc rwc clc)) =
          .ok (some (.conditional cond outp))) := by
  intro f msc mc rc tc rwc clc condNode outNode
  refine ⟨?_, ?_, ?_⟩
  · intro e h
    rw [extractOutputter_some, extractOutputterCore_conditional, h]
  · intro cond e h1 h2
    rw [extractOutputter_some, extractOutputterCore_conditional, h1, h2]
  · intro cond outp h1 h2
    rw [extractOutputter_some, extractOutputterCore_conditional, h1, h2]

/-- A condition node with an unknown discriminator. -/
def bogusCondNode : ConditionCheckerConfig := .mk "badCond" none none

/-- Witness for C8: a failing condition sub-node fails the conditional
node with its error; two succeeding sub-nodes build the conditional. -/
theorem C8_conditional_resolves_two_subnodes_witness :
    sampleStorage.extractOutputter
        (some (.mk "conditional" none none none
          (some (.mk (some bogusCondNode) none)) none none none)) =
      .err "unknown condition type: badCond" ∧
    sampleStorage.extractOutputter
        (some (.mk "conditional" none none none
          (some (.mk none (some lsNode))) none none none)) =
      .ok (some (.conditional none (some (.localSubscribers sampleStorage.node)))) :=
  ⟨(C8_conditional_resolves_two_subnodes sampleStorage none none none none none none
      (some bogusCondNode) none).1 "unknown condition type: badCond" rfl,
   (C8_conditional_resolves_two_subnodes sampleStorage none none none none none none
      none (some lsNode)).2.2 none (some (.localSubscribers sampleStorage.node)) rfl rfl⟩

/-- C9: for a `remoteWrite` node whose UID is found but whose backend
entry has nil settings, `getRemoteWriteConfig` returns a nil settings
pointer with found = true, and `extractOutputter` dereferences it — the
build panics (`nilPanic`) instead of returning a build error.  A backend
list containing such an entry realises that lookup result. -/
theorem C9_nil_backend_settings_panics :
    ∀ (f : FileStorage) (uid : String)
      (msc : Option ManagedStreamOutputConfig) (mc : Option MultipleOutputterConfig)
      (rc : Option RedirectOutputConfig) (cc : Option ConditionalOutputConfig)
      (tc : Option ThresholdOutputConfig) (clc : Option ChangeLogOutputConfig),
      (f.getRemoteWriteConfig uid = (none, true) →
        f.extractOutputter (some (.mk "remoteWrite" msc mc rc cc tc (some ⟨uid⟩) clc)) =
          .nilPanic) ∧
      (∀ (n : CentrifugeNode) (m : ManagedStreamRunner) (fs : FrameStorage),
        (FileStorage.mk n m fs [⟨uid, none⟩]).getRemoteWriteConfig uid = (none, true)) := by
  intro f uid msc mc rc cc tc clc
  constructor
  · intro h
    rw [extractOutputter_some, extractOutputterCore_remoteWrite, h]
  · intro n m fs
    simp [FileStorage.getRemoteWriteConfig, getRemoteWriteConfigFrom]

/-- A loader state whose single backend has UID `u` and nil settings. -/
def storageNilSettings : FileStorage :=
  { node := {}, managedStream := {}, frameStorage := {},
    remoteWriteBackends := [⟨"u", none⟩] }

/-- Witness for C9 at the concrete nil-settings backend. -/
theorem C9_nil_backend_settings_panics_witness :
    storageNilSettings.extractOutputter
        (some (.mk "remoteWrite" none none none none none (some ⟨"u"⟩) none)) =
      .nilPanic :=
  (C9_nil_backend_settings_panics storageNilSettings "u"
      none none none none none none).1 rfl

/-- C10: a `conditional` node with an absent condition sub-node and/or an
absent outputter sub-node builds successfully, the absent sub-node
resolving to nil in the constructed conditional output — no
missing-configuration error is raised for absent sub-nodes. -/
theorem C10_conditional_absent_subnodes_build :
    ∀ (f : FileStorage) (msc : Option ManagedStreamOutputConfig)
      (mc : Option MultipleOutputterConfig) (rc : Option RedirectOutputConfig)
      (tc : Option ThresholdOutputConfig) (rwc : Option RemoteWriteOutputConfig)
      (clc : Option ChangeLogOutputConfig),
      (f.extractOutputter
          (some (.mk "conditional" msc mc rc (some (.mk none none)) tc rwc clc)) =
        .ok (some (.conditional none none))) ∧
      (∀ (condNode : Option ConditionCheckerConfig) (cond : Option ConditionChecker),
        f.extractConditionChecker condNode = .ok cond →
        f.extractOutputter
            (some (.mk "conditional" msc mc rc (some (.mk condNode none)) tc rwc clc)) =
          .ok (some (.conditional cond none))) ∧
      (∀ (outNode : Option OutputterConfig) (outp : Option Outputter),
        f.extractOutputter outNode = .ok outp →
        f.extractOutputter
            (some (.mk "conditional" msc mc rc (some (.mk none outNode)) tc rwc clc)) =
          .ok (some (.conditional none outp))) := by
  intro f msc mc rc tc rwc clc
  refine ⟨?_, ?_, ?_⟩
  · rw [extractOutputter_some, extractOutputterCore_conditional]
    rfl
  · intro condNode cond h
    rw [extractOutputter_some, extractOutputterCore_conditional, h]
    rfl
  · intro outNode outp h
    rw [extractOutputter_some, extractOutputterCore_conditional, h]
    rfl

/-- Witness for C10 with an absent condition and a present outputter
sub-node. -/
theorem C10_conditional_absent_subnodes_build_witness :
    sampleStorage.extractOutputter
        (some (.mk "conditional" none none none
          (some (.mk none (some lsNode))) none none none)) =
      .ok (some (.conditional none (some (.localSubscribers sampleStorage.node)))) :=
  (C10_conditional_absent_subnodes_build sampleStorage none none none none none
      none).2.2 (some lsNode) (some (.localSubscribers sampleStorage.node)) rfl

end Pipeline
